import Mathlib

/-!
Shallow embedding of the BirdGate repository (RTSP audio pre-filtering
gateway) and proofs about its specification claims.

Modules embedded, with their source files:
  * config.py        — configuration dataclasses
  * features.py      — feature extraction (RMS / dB conversion)
  * gate.py          — the audio gate decision function
  * birdnet_client.py — the two classifier backends (HTTP and CLI)
  * rtsp_reader.py   — window framing and reconnect backoff
  * sqlite_log.py    — relational storage backend
  * jsonl_log.py     — append-only JSON-lines storage backend

dB levels, confidences and delays are Python floats in the source; they are
modelled as exact rationals, since the claims about them only involve
ordering, equality and closed-form arithmetic.  The one claim about the
value of a logarithm (the -200 dB floor) is modelled over the reals.
-/

namespace BirdGate

/-- Python's builtin `round` on a real number: round half to even. -/
def pyRound (q : ℚ) : ℤ :=
  let f : ℤ := ⌊q⌋
  let r : ℚ := q - f
  if r < 1/2 then f
  else if 1/2 < r then f + 1
  else if f % 2 = 0 then f else f + 1

/-- Python's builtin `int` on a real number: truncation toward zero. -/
def pyInt (q : ℚ) : ℤ := if 0 ≤ q then ⌊q⌋ else ⌈q⌉

/-- Python's `"%.1f"` formatting, used only for the human-readable `reason`
strings of the gate (the sign of a negative zero is not modelled). -/
def fmt1 (q : ℚ) : String :=
  let n : ℤ := pyRound (10 * q)
  let a : ℕ := n.natAbs
  (if n < 0 then "-" else "") ++ toString (a / 10) ++ "." ++ toString (a % 10)

namespace config

/-- config.py, `FrequencyBand`: frequency band definition in Hz. -/
structure FrequencyBand where
  low : ℚ
  high : ℚ

/-- config.py, `GatingThresholds`: thresholds for audio gating decisions. -/
structure GatingThresholds where
  min_overall_rms_db : ℚ
  min_bird_snr_db : ℚ

/-- config.py, `StreamConfig`: configuration for a single RTSP stream
(only the fields the framer reads; `name` and `url` only feed the decoder
command line and log messages). -/
structure StreamConfig where
  name : String
  url : String
  sample_rate : ℕ
  window_size_seconds : ℚ
  channels : ℕ

/-- config.py, `BirdNETConfig`: the fields that influence result parsing.
`mode`, `http_url`, `http_timeout`, `cli_path`, `cli_model_path`,
`latitude` and `longitude` only configure I/O and do not affect the
value computed from a given backend response, so they are omitted. -/
structure BirdNETConfig where
  min_confidence : ℚ
  top_n : ℕ

end config

namespace features

/-- features.py, `AudioFeatures`: extracted audio features for a window. -/
structure AudioFeatures where
  rms_total_db : ℚ
  rms_bird_band_db : ℚ
  rms_low_band_db : ℚ
  snr_bird_db : ℚ

end features

namespace gate

/-- gate.py, `GateDecision`: possible gating decisions. -/
inductive GateDecision where
  | SILENCE
  | TRASH
  | SEND_TO_BIRDNET
deriving DecidableEq, Repr

/-- gate.py: the `.value` of each `GateDecision` enum member. -/
def GateDecision.value : GateDecision → String
  | .SILENCE => "SILENCE"
  | .TRASH => "TRASH"
  | .SEND_TO_BIRDNET => "SEND_TO_BIRDNET"

/-- gate.py, `GateResult`: result of gating decision with explanation. -/
structure GateResult where
  decision : GateDecision
  reason : String

/-- gate.py, `AudioGate`: holds the thresholds. -/
structure AudioGate where
  thresholds : config.GatingThresholds

/-- gate.py, `AudioGate.evaluate` (lines 30-63). -/
def AudioGate.evaluate (g : AudioGate) (f : features.AudioFeatures) : GateResult :=
  if f.rms_total_db < g.thresholds.min_overall_rms_db then
    { decision := .SILENCE
      reason := "RMS " ++ fmt1 f.rms_total_db ++ " dB < threshold "
        ++ fmt1 g.thresholds.min_overall_rms_db ++ " dB" }
  else if f.snr_bird_db < g.thresholds.min_bird_snr_db then
    { decision := .TRASH
      reason := "Bird SNR " ++ fmt1 f.snr_bird_db ++ " dB < threshold "
        ++ fmt1 g.thresholds.min_bird_snr_db ++ " dB" }
  else
    { decision := .SEND_TO_BIRDNET
      reason := "RMS " ++ fmt1 f.rms_total_db ++ " dB, Bird SNR "
        ++ fmt1 f.snr_bird_db ++ " dB" }

end gate

namespace features

/-- features.py, `_db_from_rms` (lines 23-25): convert RMS amplitude to
decibels, with the default floor argument of 1e-10. -/
noncomputable def _db_from_rms (rms : ℝ) : ℝ :=
  20 * Real.logb 10 (max rms (1 / 10 ^ 10))

/-- features.py, `_rms` (lines 28-32): RMS of samples, 0 for the empty
array (else the square root of the mean of the squares). -/
noncomputable def _rms (samples : List ℝ) : ℝ :=
  if samples.length = 0 then 0
  else Real.sqrt ((samples.map fun x => x ^ 2).sum / samples.length)

/-- features.py, `FeatureExtractor.extract` (lines 114-116): the
`rms_total_db` field of the result, computed from the raw samples before
any band filtering and independent of the configured bands. -/
noncomputable def extract_rms_total_db (samples : List ℝ) : ℝ :=
  _db_from_rms (_rms samples)

end features

namespace rtsp_reader

/-- np.frombuffer(raw, dtype=np.int16): consecutive little-endian byte pairs
b0, b1 become the signed 16-bit value of b0 + 256 * b1 (the framer always
passes an even number of bytes). -/
def int16FromBytes : List (Fin 256) → List ℤ
  | b0 :: b1 :: rest =>
      (let u : ℕ := (b0 : ℕ) + 256 * (b1 : ℕ)
       if u < 32768 then (u : ℤ) else (u : ℤ) - 65536) :: int16FromBytes rest
  | _ => []

/-- samples.reshape(-1, channels).mean(axis=1): n groups of `channels`
consecutive samples, each replaced by its arithmetic mean (the caller
guarantees the sample count is n * channels). -/
def channelMean (channels : ℕ) : ℕ → List ℚ → List ℚ
  | 0, _ => []
  | n + 1, l =>
      (l.take channels).sum / (channels : ℚ) :: channelMean channels n (l.drop channels)

/-- rtsp_reader.py, `RTSPReader._read_window` (lines 69-105), for a live
decoder process whose stdout will deliver the byte sequence `stream` before
EOF: `none` on a short read (the stream held fewer bytes than one window
needs), otherwise the mono sample list of the produced AudioWindow.
`int()` truncates; for the positive sample rates and window sizes enforced
by config.py the value is nonnegative, so `Int.toNat` is exact. -/
def _read_window (cfg : config.StreamConfig) (stream : List (Fin 256)) :
    Option (List ℚ) :=
  let samples_per_window : ℕ :=
    (pyInt ((cfg.sample_rate : ℚ) * cfg.window_size_seconds)).toNat
  let bytes_per_sample : ℕ := 2
  let bytes_needed : ℕ := samples_per_window * cfg.channels * bytes_per_sample
  if stream.length < bytes_needed then none
  else
    let raw_data := stream.take bytes_needed
    let samples_int16 := int16FromBytes raw_data
    let samples : List ℚ := samples_int16.map fun (v : ℤ) => (v : ℚ) / 32768
    if cfg.channels > 1 then
      some (channelMean cfg.channels (samples.length / cfg.channels) samples)
    else
      some samples

/-- rtsp_reader.py, `RTSPReader.stream_windows` (lines 119-163): the sequence
of delays slept, one per outer-loop iteration that ends in a reconnect wait
(i.e. while `_running` stays true).  Each iteration either spawns the decoder
successfully (`ok = true`; `current_delay` is reset to `reconnect_delay`
immediately after the spawn, before any window is read) or the spawn raises
(`ok = false`; no reset).  The iteration sleeps the current delay and then
sets it to `min(current_delay * 2, max_reconnect_delay)`.  Windows yielded
while streaming do not affect the delay. -/
def stream_windows_sleeps (reconnect_delay max_reconnect_delay : ℚ) :
    List Bool → ℚ → List ℚ
  | [], _ => []
  | ok :: rest, current_delay =>
      let d := if ok then reconnect_delay else current_delay
      d :: stream_windows_sleeps reconnect_delay max_reconnect_delay rest
        (min (d * 2) max_reconnect_delay)

end rtsp_reader

namespace birdnet_client

/-- JSON values, as produced by response.json() / json.load(). -/
inductive JVal where
  | jnull
  | jbool (b : Bool)
  | jnum (q : ℚ)
  | jstr (s : String)
  | jarr (items : List JVal)
  | jobj (fields : List (String × JVal))

/-- Python truthiness of a JSON value. -/
def truthy : JVal → Bool
  | .jnull => false
  | .jbool b => b
  | .jnum q => q != 0
  | .jstr s => s != ""
  | .jarr items => !items.isEmpty
  | .jobj fields => !fields.isEmpty

/-- dict lookup: the value stored under a key (keys of a Python dict are
unique, so the first association is the only one). -/
def dget (fields : List (String × JVal)) (key : String) : Option JVal :=
  (fields.find? fun p => p.1 == key).map fun p => p.2

/-- dict.get(key, default). -/
def dgetD (fields : List (String × JVal)) (key : String) (dflt : JVal) : JVal :=
  (dget fields key).getD dflt

/-- Python `a or b`: a if a is truthy, else b (dict.get's None default is
modelled as jnull, which is falsy like None). -/
def pyOr (a b : JVal) : JVal := if truthy a then a else b

/-- Digits to a natural number (the caller checks every char is a digit). -/
def digitsToNat (cs : List Char) : ℕ :=
  cs.foldl (fun acc c => 10 * acc + (c.toNat - 48)) 0

/-- Python float() applied to a string: an optional sign followed by a plain
decimal literal (exponent notation, inf/nan and surrounding whitespace are
outside the model); None means float() raises ValueError. -/
def pyFloatOfString (s : String) : Option ℚ :=
  let (sign, body) :=
    match s.toList with
    | '-' :: rest => ((-1 : ℚ), rest)
    | '+' :: rest => ((1 : ℚ), rest)
    | cs => ((1 : ℚ), cs)
  match (String.mk body).splitOn "." with
  | [a] =>
      if a.toList.all Char.isDigit && !a.isEmpty then
        some (sign * digitsToNat a.toList)
      else none
  | [a, b] =>
      if (a.toList ++ b.toList).all Char.isDigit && !(a.isEmpty && b.isEmpty) then
        some (sign * ((digitsToNat a.toList : ℚ)
          + (digitsToNat b.toList : ℚ) / 10 ^ b.length))
      else none
  | _ => none

/-- Python float() on a JSON value: numbers and booleans convert, numeric
strings parse, anything else raises (TypeError/ValueError), which the
analyze methods catch with their blanket except handler. -/
def pyFloat : JVal → Except Unit ℚ
  | .jnum q => .ok q
  | .jbool b => .ok (if b then 1 else 0)
  | .jstr s =>
      match pyFloatOfString s with
      | some q => .ok q
      | none => .error ()
  | _ => .error ()

/-- birdnet_client.py, `Detection` dataclass. `species` is annotated `str`
but Python does not enforce the annotation: the parsers store whatever the
JSON held, so it is modelled as a JSON value. -/
structure Detection where
  species : JVal
  confidence : ℚ
  start_time : ℚ := 0
  end_time : ℚ := 0

/-- Species resolution in the HTTP backend (lines 99, 112 and 145):
item.get("scientific_name") or item.get("common_name")
or item.get("species", "Unknown"). -/
def resolveSpeciesHttp (item : List (String × JVal)) : JVal :=
  pyOr (dgetD item "scientific_name" .jnull)
    (pyOr (dgetD item "common_name" .jnull)
      (dgetD item "species" (.jstr "Unknown")))

/-- Species resolution in the CLI backend (lines 228 and 237):
detection.get("scientific_name", detection.get("common_name", "Unknown")).
Presence-based, and the "species" key is never consulted. -/
def resolveSpeciesCli (det : List (String × JVal)) : JVal :=
  dgetD det "scientific_name" (dgetD det "common_name" (.jstr "Unknown"))

/-- The species-resolution rule as the claim states it — the first present
of scientific_name, common_name, species, defaulting to "Unknown" when none
is present — written from the claim's words for comparison with the code's
actual rules. -/
def claimedFirstPresentSpecies (item : List (String × JVal)) : JVal :=
  match dget item "scientific_name" with
  | some v => v
  | none =>
    match dget item "common_name" with
    | some v => v
    | none =>
      match dget item "species" with
      | some v => v
      | none => .jstr "Unknown"

/-- The sort key order of detections.sort(key=lambda d: d.confidence,
reverse=True): a comes no later than b when b's confidence is no larger. -/
def confDesc (a b : Detection) : Prop := b.confidence ≤ a.confidence

instance : DecidableRel confDesc :=
  fun a b => inferInstanceAs (Decidable (b.confidence ≤ a.confidence))

instance : IsTotal Detection confDesc :=
  ⟨fun a b => le_total b.confidence a.confidence⟩

instance : IsTrans Detection confDesc :=
  ⟨fun _ _ _ hab hbc => le_trans hbc hab⟩

/-- detections.sort(key=lambda d: d.confidence, reverse=True): Python's
stable descending sort, modelled as stable insertion sort. -/
def sortDetections (l : List Detection) : List Detection :=
  List.insertionSort confDesc l

/-- birdnet_client.py lines 119-122: filter by min_confidence, sort
descending, truncate to top_n. -/
def postprocessHttp (cfg : config.BirdNETConfig) (dets : List Detection) :
    List Detection :=
  (sortDetections (dets.filter fun d => cfg.min_confidence ≤ d.confidence)).take
    cfg.top_n

/-- birdnet_client.py lines 95-106: loop over a top-level list response.
Non-dict items are skipped; a float() failure raises out of the loop (the
blanket handler then returns []). -/
def parseHttpList : List JVal → Except Unit (List Detection)
  | [] => .ok []
  | item :: rest =>
    match item with
    | .jobj fields =>
        match pyFloat (dgetD fields "confidence" (.jnum 0)) with
        | .error e => .error e
        | .ok conf =>
          match pyFloat (dgetD fields "start_time" (.jnum 0)) with
          | .error e => .error e
          | .ok st =>
            match pyFloat (dgetD fields "end_time" (.jnum 0)) with
            | .error e => .error e
            | .ok et =>
              match parseHttpList rest with
              | .error e => .error e
              | .ok tail => .ok (⟨resolveSpeciesHttp fields, conf, st, et⟩ :: tail)
    | _ => parseHttpList rest

/-- birdnet_client.py `_parse_detections` (lines 140-155) loop: like the
list loop but confidence >= min_confidence is checked at append time, and
start/end times are only read for appended detections. -/
def parseHttpDetectionsLoop (cfg : config.BirdNETConfig) :
    List JVal → Except Unit (List Detection)
  | [] => .ok []
  | item :: rest =>
    match item with
    | .jobj fields =>
        match pyFloat (dgetD fields "confidence" (.jnum 0)) with
        | .error e => .error e
        | .ok conf =>
          if cfg.min_confidence ≤ conf then
            match pyFloat (dgetD fields "start_time" (.jnum 0)) with
            | .error e => .error e
            | .ok st =>
              match pyFloat (dgetD fields "end_time" (.jnum 0)) with
              | .error e => .error e
              | .ok et =>
                match parseHttpDetectionsLoop cfg rest with
                | .error e => .error e
                | .ok tail =>
                    .ok (⟨resolveSpeciesHttp fields, conf, st, et⟩ :: tail)
          else
            parseHttpDetectionsLoop cfg rest
    | _ => parseHttpDetectionsLoop cfg rest

/-- birdnet_client.py `BirdNETHttpClient._parse_detections` (lines 140-155):
parse, then sort descending and truncate (already filtered at append). -/
def _parse_detections (cfg : config.BirdNETConfig) (items : List JVal) :
    Except Unit (List Detection) :=
  match parseHttpDetectionsLoop cfg items with
  | .error e => .error e
  | .ok dets => .ok ((sortDetections dets).take cfg.top_n)

/-- The try-block of `BirdNETHttpClient.analyze` (lines 88-122) after a
successful request whose body parsed to the JSON value `data`.  An error
value stands for any exception raised inside the block (float() on a
non-numeric value, or iterating a "detections" value that is not a list —
when that value is a string or dict, Python iterates it and skips every
element, which also ends in an empty result). -/
def analyzeHttpBody (cfg : config.BirdNETConfig) (data : JVal) :
    Except Unit (List Detection) :=
  match data with
  | .jarr items =>
      match parseHttpList items with
      | .error e => .error e
      | .ok dets => .ok (postprocessHttp cfg dets)
  | .jobj fields =>
      match dget fields "detections" with
      | some (.jarr items) => _parse_detections cfg items
      | some _ => .error ()
      | none =>
          if (dget fields "species").isSome
              || (dget fields "scientific_name").isSome then
            match pyFloat (dgetD fields "confidence" (.jnum 0)) with
            | .error e => .error e
            | .ok conf =>
                .ok (postprocessHttp cfg [⟨resolveSpeciesHttp fields, conf, 0, 0⟩])
          else
            .ok (postprocessHttp cfg [])
  | _ => .ok (postprocessHttp cfg [])

/-- Outcome of the HTTP request in `BirdNETHttpClient.analyze`:
requestError covers connection failures, timeouts and raise_for_status on a
non-2xx status (all requests.RequestException); jsonError a body that is
not JSON; otherFailure any other exception (e.g. writing the WAV). -/
inductive HttpOutcome where
  | requestError
  | jsonError
  | otherFailure
  | success (data : JVal)

/-- birdnet_client.py, `BirdNETHttpClient.analyze` (lines 58-138). -/
def analyzeHttp (cfg : config.BirdNETConfig) (outcome : HttpOutcome) :
    List Detection :=
  match outcome with
  | .requestError => []
  | .jsonError => []
  | .otherFailure => []
  | .success data =>
      match analyzeHttpBody cfg data with
      | .ok dets => dets
      | .error _ => []

/-- Outcome of running the CLI in `BirdNETCliClient.analyze`: timeout
(subprocess.TimeoutExpired), nonzero exit status, no output file matching
the glob, unparseable JSON in the output file, any other exception, or the
parsed JSON value. -/
inductive CliOutcome where
  | timeout
  | exitNonzero
  | noOutputFile
  | jsonError
  | otherFailure
  | success (data : JVal)

/-- birdnet_client.py lines 235-243 (flat-list shape) and the inner loop of
lines 226-234 (the detections of one result entry): each entry must be a
dict (item.get on anything else raises AttributeError, caught by the outer
handler); confidence >= min_confidence is checked at append time; start and
end times keep the dataclass defaults of 0. -/
def parseCliDetList (cfg : config.BirdNETConfig) :
    List JVal → Except Unit (List Detection)
  | [] => .ok []
  | item :: rest =>
    match item with
    | .jobj fields =>
        match pyFloat (dgetD fields "confidence" (.jnum 0)) with
        | .error e => .error e
        | .ok conf =>
          match parseCliDetList cfg rest with
          | .error e => .error e
          | .ok tail =>
              if cfg.min_confidence ≤ conf then
                .ok (⟨resolveSpeciesCli fields, conf, 0, 0⟩ :: tail)
              else
                .ok tail
    | _ => .error ()

/-- birdnet_client.py lines 225-234: loop over data["results"].  Each result
entry must be a dict with a list (or absent) "detections" value; anything
else raises (or, for iterable non-lists, yields nothing) and the analyze
call returns []. -/
def parseCliResults (cfg : config.BirdNETConfig) :
    List JVal → Except Unit (List Detection)
  | [] => .ok []
  | item :: rest =>
    match item with
    | .jobj fields =>
        match dgetD fields "detections" (.jarr []) with
        | .jarr dets =>
            match parseCliDetList cfg dets with
            | .error e => .error e
            | .ok cur =>
              match parseCliResults cfg rest with
              | .error e => .error e
              | .ok tail => .ok (cur ++ tail)
        | _ => .error ()
    | _ => .error ()

/-- The result-parsing part of `BirdNETCliClient.analyze` (lines 221-243)
on the JSON value `data` loaded from the output file. -/
def analyzeCliBody (cfg : config.BirdNETConfig) (data : JVal) :
    Except Unit (List Detection) :=
  match data with
  | .jobj fields =>
      match dget fields "results" with
      | some (.jarr ris) => parseCliResults cfg ris
      | some _ => .error ()
      | none => .ok []
  | .jarr items => parseCliDetList cfg items
  | _ => .ok []

/-- birdnet_client.py, `BirdNETCliClient.analyze` (lines 164-270): on
success the parsed detections are sorted descending and truncated to top_n
(lines 245-247); every failure path returns []. -/
def analyzeCli (cfg : config.BirdNETConfig) (outcome : CliOutcome) :
    List Detection :=
  match outcome with
  | .success data =>
      match analyzeCliBody cfg data with
      | .ok dets => (sortDetections dets).take cfg.top_n
      | .error _ => []
  | _ => []

end birdnet_client

namespace sqlite_log

/-- sqlite_log.py: one row of the `windows` table (the created_at column,
filled by sqlite itself, is omitted). -/
structure WindowRow where
  id : ℕ
  timestamp : String
  site_id : String
  stream_name : String
  rms_total_db : ℚ
  rms_bird_band_db : ℚ
  rms_low_band_db : ℚ
  snr_bird_db : ℚ
  decision : String
  reason : String

/-- sqlite_log.py: one row of the `detections` table. -/
structure DetectionRow where
  id : ℕ
  window_id : ℕ
  species : birdnet_client.JVal
  confidence : ℚ
  start_time : ℚ
  end_time : ℚ

/-- The committed state of the sqlite database file, with the two
autoincrement counters. -/
structure SQLiteDB where
  site_id : String
  windows : List WindowRow
  detections : List DetectionRow
  next_window_id : ℕ
  next_detection_id : ℕ

/-- The detection rows that the loop of log_window (lines 127-142) inserts
for a detections list, starting at autoincrement id startId. -/
def detRowsFrom (startId wid : ℕ) :
    List birdnet_client.Detection → List DetectionRow
  | [] => []
  | d :: rest =>
      ⟨startId, wid, d.species, d.confidence, d.start_time, d.end_time⟩
        :: detRowsFrom (startId + 1) wid rest

/-- The detection-insert loop of log_window running inside the transaction.
Each detection carries a failure flag: true models sqlite3 raising on that
INSERT (disk full, constraint violation, ...), aborting the body there. -/
def insertDetections (wid : ℕ) :
    SQLiteDB → List (birdnet_client.Detection × Bool) → Except Unit SQLiteDB
  | db, [] => .ok db
  | db, (d, fails) :: rest =>
      if fails then .error ()
      else
        insertDetections wid
          { db with
              detections := db.detections
                ++ [⟨db.next_detection_id, wid, d.species, d.confidence,
                      d.start_time, d.end_time⟩]
              next_detection_id := db.next_detection_id + 1 }
          rest

/-- The body of log_window (lines 103-144) inside the transaction: INSERT
the window row (window_insert_fails models sqlite3 raising there), read
lastrowid, then insert one row per detection (Python's `if detections:`
guard skips the loop for an empty list, which inserts nothing either
way). -/
def log_window_body (db : SQLiteDB) (timestamp stream_name : String)
    (f : features.AudioFeatures) (decision : gate.GateDecision)
    (reason : String) (dets : List (birdnet_client.Detection × Bool))
    (window_insert_fails : Bool) : Except Unit (SQLiteDB × ℕ) :=
  if window_insert_fails then .error ()
  else
    let wid := db.next_window_id
    let db1 := { db with
      windows := db.windows
        ++ [⟨wid, timestamp, db.site_id, stream_name,
              f.rms_total_db, f.rms_bird_band_db, f.rms_low_band_db,
              f.snr_bird_db, decision.value, reason⟩]
      next_window_id := wid + 1 }
    match insertDetections wid db1 dets with
    | .error e => .error e
    | .ok db2 => .ok (db2, wid)

/-- sqlite_log.py, `SQLiteStorage.log_window` (lines 80-144) under the
`_connection` context manager (lines 66-78): commit on success (keep the
new state, return the id), rollback and re-raise on any exception (return
the old state and the error). -/
def log_window (db : SQLiteDB) (timestamp stream_name : String)
    (f : features.AudioFeatures) (decision : gate.GateDecision)
    (reason : String) (dets : List (birdnet_client.Detection × Bool))
    (window_insert_fails : Bool) : SQLiteDB × Except Unit ℕ :=
  match log_window_body db timestamp stream_name f decision reason dets
      window_insert_fails with
  | .ok (db2, wid) => (db2, .ok wid)
  | .error e => (db, .error e)

/-- The ORDER BY confidence DESC key order on detection rows. -/
def rowConfDesc (a b : DetectionRow) : Prop := b.confidence ≤ a.confidence

instance : DecidableRel rowConfDesc :=
  fun a b => inferInstanceAs (Decidable (b.confidence ≤ a.confidence))

instance : IsTotal DetectionRow rowConfDesc :=
  ⟨fun a b => le_total b.confidence a.confidence⟩

instance : IsTrans DetectionRow rowConfDesc :=
  ⟨fun _ _ _ hab hbc => le_trans hbc hab⟩

/-- sqlite_log.py, `get_detections_for_window` (lines 171-178):
SELECT * FROM detections WHERE window_id = ? ORDER BY confidence DESC
(sqlite leaves the order of equal keys unspecified; the model picks the
stable one). -/
def get_detections_for_window (db : SQLiteDB) (window_id : ℕ) :
    List DetectionRow :=
  List.insertionSort rowConfDesc
    (db.detections.filter fun r => r.window_id == window_id)

end sqlite_log

namespace jsonl_log

/-- The record written as one JSON line by log_window (lines 61-83); its
detections entries carry exactly the Detection fields. -/
structure JRecord where
  id : ℕ
  timestamp : String
  site_id : String
  stream_name : String
  features : features.AudioFeatures
  decision : String
  reason : String
  detections : List birdnet_client.Detection

/-- jsonl_log.py, `JSONLStorage`: the backing file as a list of lines
(`none` models a line json.loads rejects) plus the _window_id counter and
site id. -/
structure JSONLStorage where
  site_id : String
  window_id : ℕ
  lines : List (Option JRecord)

/-- jsonl_log.py, `log_window` (lines 36-88): increment the counter, append
one well-formed line, return the id. -/
def log_window (st : JSONLStorage) (timestamp stream_name : String)
    (f : features.AudioFeatures) (decision : gate.GateDecision)
    (reason : String) (dets : List birdnet_client.Detection) :
    JSONLStorage × ℕ :=
  let wid := st.window_id + 1
  ({ st with
      window_id := wid
      lines := st.lines
        ++ [some ⟨wid, timestamp, st.site_id, stream_name, f,
              decision.value, reason, dets⟩] },
    wid)

/-- jsonl_log.py, `get_detections_for_window` (lines 120-134): scan the
lines in file order, skip malformed ones, and return the detections list of
the first record whose id matches — in stored order, without sorting. -/
def get_detections_for_window (st : JSONLStorage) (window_id : ℕ) :
    List birdnet_client.Detection :=
  match (st.lines.filterMap id).find? fun r => r.id == window_id with
  | some r => r.detections
  | none => []

/-- Python's list slice l[-limit:] for a nonnegative limit: the whole list
when limit is 0 (because -0 == 0 the slice is l[0:]), otherwise the last
limit elements. -/
def pyTailSlice {α : Type} (l : List α) (limit : ℕ) : List α :=
  if limit = 0 then l else l.drop (l.length - limit)

/-- The filter applied per record by get_recent_windows (lines 107-111);
an absent (or, in Python, empty/falsy) filter argument matches
everything. -/
def recordMatches (stream_name : Option String)
    (decision : Option gate.GateDecision) (r : JRecord) : Bool :=
  (match stream_name with
   | some sn => r.stream_name == sn
   | none => true) &&
  (match decision with
   | some d => r.decision == d.value
   | none => true)

/-- jsonl_log.py, `get_recent_windows` (lines 90-118): parse every line,
keep the records passing both optional filters, take the last `limit` via
results[-limit:], and reverse (most recent first).  Negative limits do not
occur in the callers and are outside the model. -/
def get_recent_windows (st : JSONLStorage) (limit : ℕ)
    (stream_name : Option String) (decision : Option gate.GateDecision) :
    List JRecord :=
  let results :=
    (st.lines.filterMap id).filter (recordMatches stream_name decision)
  (pyTailSlice results limit).reverse

end jsonl_log

/-! ## Theorems about the claims -/

/-- C1: for every AudioFeatures value f and GatingThresholds t,
AudioGate.evaluate(f) returns decision SILENCE if
f.rms_total_db < t.min_overall_rms_db; otherwise TRASH if
f.snr_bird_db < t.min_bird_snr_db; otherwise SEND_TO_BIRDNET. -/
theorem C1_gate_evaluate_decision
    (f : features.AudioFeatures) (t : config.GatingThresholds) :
    (f.rms_total_db < t.min_overall_rms_db →
      ((gate.AudioGate.mk t).evaluate f).decision = gate.GateDecision.SILENCE) ∧
    (t.min_overall_rms_db ≤ f.rms_total_db →
      f.snr_bird_db < t.min_bird_snr_db →
      ((gate.AudioGate.mk t).evaluate f).decision = gate.GateDecision.TRASH) ∧
    (t.min_overall_rms_db ≤ f.rms_total_db →
      t.min_bird_snr_db ≤ f.snr_bird_db →
      ((gate.AudioGate.mk t).evaluate f).decision = gate.GateDecision.SEND_TO_BIRDNET) := by
  refine ⟨fun h1 => ?_, fun h1 h2 => ?_, fun h1 h2 => ?_⟩
  · simp [gate.AudioGate.evaluate, h1]
  · simp [gate.AudioGate.evaluate, not_lt.mpr h1, h2]
  · simp [gate.AudioGate.evaluate, not_lt.mpr h1, not_lt.mpr h2]

/-- Witness for C1 at concrete inputs: features with RMS -70 dB against the
default thresholds (-60 dB, 3 dB) are classified SILENCE. -/
theorem C1_gate_evaluate_decision_witness :
    ((gate.AudioGate.mk ⟨-60, 3⟩).evaluate ⟨-70, -30, -40, 10⟩).decision
      = gate.GateDecision.SILENCE :=
  (C1_gate_evaluate_decision ⟨-70, -30, -40, 10⟩ ⟨-60, 3⟩).1 (by decide)

theorem int16FromBytes_length :
    ∀ l : List (Fin 256), (rtsp_reader.int16FromBytes l).length = l.length / 2
  | [] => by simp [rtsp_reader.int16FromBytes]
  | [_] => by simp [rtsp_reader.int16FromBytes]
  | _ :: _ :: rest => by
      rw [rtsp_reader.int16FromBytes]
      simp only [List.length_cons]
      rw [int16FromBytes_length rest]
      omega

theorem int16FromBytes_bounds :
    ∀ l : List (Fin 256), ∀ v ∈ rtsp_reader.int16FromBytes l,
      -32768 ≤ v ∧ v ≤ 32767
  | [] => by intro v hv; simp [rtsp_reader.int16FromBytes] at hv
  | [_] => by intro v hv; simp [rtsp_reader.int16FromBytes] at hv
  | b0 :: b1 :: rest => by
      intro v hv
      rw [rtsp_reader.int16FromBytes] at hv
      rcases List.mem_cons.mp hv with h | h
      · have hb0 : (b0 : ℕ) < 256 := b0.isLt
        have hb1 : (b1 : ℕ) < 256 := b1.isLt
        subst h
        dsimp only
        split <;> omega
      · exact int16FromBytes_bounds rest v h

theorem channelMean_length (channels : ℕ) :
    ∀ (n : ℕ) (l : List ℚ), (rtsp_reader.channelMean channels n l).length = n := by
  intro n
  induction n with
  | zero => intro l; rfl
  | succ n ih =>
      intro l
      rw [rtsp_reader.channelMean]
      simp [ih]

theorem sum_bounds_of_unit (l : List ℚ) (h : ∀ x ∈ l, -1 ≤ x ∧ x ≤ 1) :
    -(l.length : ℚ) ≤ l.sum ∧ l.sum ≤ l.length := by
  induction l with
  | nil => simp
  | cons x xs ih =>
      have hx := h x (List.mem_cons_self x xs)
      have hxs := ih fun y hy => h y (List.mem_cons_of_mem x hy)
      simp only [List.sum_cons, List.length_cons]
      push_cast
      constructor <;> linarith [hx.1, hx.2, hxs.1, hxs.2]

theorem channelMean_bounds (channels : ℕ) (hch : 1 ≤ channels) :
    ∀ (n : ℕ) (l : List ℚ), (∀ x ∈ l, -1 ≤ x ∧ x ≤ 1) →
      ∀ y ∈ rtsp_reader.channelMean channels n l, -1 ≤ y ∧ y ≤ 1 := by
  intro n
  induction n with
  | zero => intro l _ y hy; simp [rtsp_reader.channelMean] at hy
  | succ n ih =>
      intro l hl y hy
      rw [rtsp_reader.channelMean] at hy
      have hchq : (1 : ℚ) ≤ (channels : ℚ) := by exact_mod_cast hch
      rcases List.mem_cons.mp hy with h | h
      · subst h
        have htake : ∀ x ∈ l.take channels, -1 ≤ x ∧ x ≤ 1 :=
          fun x hx => hl x (List.mem_of_mem_take hx)
        have hsum := sum_bounds_of_unit (l.take channels) htake
        have hlen : ((l.take channels).length : ℚ) ≤ (channels : ℚ) := by
          exact_mod_cast List.length_take_le channels l
        have hpos : (0 : ℚ) < (channels : ℚ) := by linarith
        constructor
        · rw [le_div_iff₀ hpos]
          nlinarith [hsum.1]
        · rw [div_le_iff₀ hpos]
          nlinarith [hsum.2]
      · exact ih (l.drop channels)
          (fun x hx => hl x (List.mem_of_mem_drop hx)) y h

/-- C2 (counterexample to the claim as stated): with sample_rate 1,
window_size_seconds 1.5 and one channel, a successful full read of two zero
bytes yields one mono sample, while round(sample_rate * window_size_seconds)
is 2: the framer uses int() truncation, not round(). -/
theorem C2_counterexample :
    rtsp_reader._read_window ⟨"cam", "rtsp://x", 1, 3/2, 1⟩ [0, 0]
        = some [(0 : ℚ)] ∧
    pyRound ((1 : ℚ) * (3/2)) = 2 ∧
    ([(0 : ℚ)].length : ℤ) ≠ pyRound ((1 : ℚ) * (3/2)) := by
  have hround : pyRound ((1 : ℚ) * (3/2)) = 2 := by
    norm_num [pyRound]
  refine ⟨?_, hround, by rw [hround]; decide⟩
  norm_num [rtsp_reader._read_window, pyInt, rtsp_reader.int16FromBytes]

/-- C2 (amended): for every AudioWindow produced by the framer (i.e. whenever
a full read of the requested bytes succeeds), the number of mono samples
equals int(sample_rate * window_size_seconds) — Python truncation, not
round() — and every sample lies in [-1, 1]; this holds for every channel
count ≥ 1, with multi-channel input averaged to mono. -/
theorem C2_read_window_length_and_bounds
    (cfg : config.StreamConfig) (stream : List (Fin 256)) (w : List ℚ)
    (hch : 1 ≤ cfg.channels)
    (hw : rtsp_reader._read_window cfg stream = some w) :
    w.length = (pyInt ((cfg.sample_rate : ℚ) * cfg.window_size_seconds)).toNat ∧
    ∀ s ∈ w, -1 ≤ s ∧ s ≤ 1 := by
  unfold rtsp_reader._read_window at hw
  simp only at hw
  set spw := (pyInt ((cfg.sample_rate : ℚ) * cfg.window_size_seconds)).toNat with hspw
  split at hw
  · exact absurd hw (by simp)
  · rename_i hlong
    push_neg at hlong
    set raw := stream.take (spw * cfg.channels * 2) with hraw
    have hrawlen : raw.length = spw * cfg.channels * 2 := by
      rw [hraw, List.length_take]
      omega
    set samples := (rtsp_reader.int16FromBytes raw).map
      (fun (v : ℤ) => (v : ℚ) / 32768) with hsamples
    have hslen : samples.length = spw * cfg.channels := by
      rw [hsamples, List.length_map, int16FromBytes_length, hrawlen]
      omega
    have hsbounds : ∀ x ∈ samples, -1 ≤ x ∧ x ≤ 1 := by
      intro x hx
      rw [hsamples] at hx
      rcases List.mem_map.mp hx with ⟨v, hv, rfl⟩
      have hb := int16FromBytes_bounds raw v hv
      have h1 : (-32768 : ℚ) ≤ (v : ℚ) := by exact_mod_cast hb.1
      have h2 : ((v : ℚ)) ≤ 32767 := by exact_mod_cast hb.2
      constructor <;> [linarith; linarith]
    split at hw
    · rename_i hgt
      have hw' : w = rtsp_reader.channelMean cfg.channels
          (samples.length / cfg.channels) samples := (Option.some.inj hw).symm
      constructor
      · rw [hw', channelMean_length, hslen, Nat.mul_div_cancel _ (by omega)]
      · intro s hs
        rw [hw'] at hs
        exact channelMean_bounds cfg.channels hch _ samples hsbounds s hs
    · rename_i hle
      have hch1 : cfg.channels = 1 := by omega
      have hw' : w = samples := (Option.some.inj hw).symm
      constructor
      · rw [hw', hslen, hch1, Nat.mul_one]
      · intro s hs
        rw [hw'] at hs
        exact hsbounds s hs

/-- Witness for C2 (amended): a mono stream at 1 Hz with a 1-second window
reads 2 zero bytes into 1 mono sample, within [-1, 1]. -/
theorem C2_read_window_length_and_bounds_witness :
    ([(0 : ℚ)].length = (pyInt (((1 : ℕ) : ℚ) * (1 : ℚ))).toNat) ∧
    ∀ s ∈ [(0 : ℚ)], -1 ≤ s ∧ s ≤ 1 :=
  C2_read_window_length_and_bounds
    ⟨"cam", "rtsp://x", 1, 1, 1⟩ [0, 0] [0]
    (by decide)
    (by simp [rtsp_reader._read_window, pyInt, rtsp_reader.int16FromBytes])

theorem min_double_pow_absorb (k : ℕ) (a mx : ℚ) (hmx : 0 ≤ mx) :
    min (2 ^ k * min (a * 2) mx) mx = min (2 ^ (k + 1) * a) mx := by
  have hpow : (1 : ℚ) ≤ 2 ^ k := one_le_pow₀ (by norm_num)
  rcases le_total (a * 2) mx with h | h
  · rw [min_eq_left h]
    congr 1
    ring
  · rw [min_eq_right h]
    have h1 : mx ≤ 2 ^ k * mx := by nlinarith
    have h2 : mx ≤ 2 ^ (k + 1) * a := by
      have : (2 : ℚ) ^ (k + 1) * a = 2 ^ k * (a * 2) := by ring
      nlinarith
    rw [min_eq_right h1, min_eq_right h2]

theorem stream_windows_sleeps_replicate_false
    (rd mx : ℚ) (hmx : 0 ≤ mx) :
    ∀ (n : ℕ) (a : ℚ), a ≤ mx →
      rtsp_reader.stream_windows_sleeps rd mx (List.replicate n false) a
        = (List.range n).map fun k => min (2 ^ k * a) mx := by
  intro n
  induction n with
  | zero => intro a _; rfl
  | succ n ih =>
      intro a ha
      rw [List.replicate_succ, rtsp_reader.stream_windows_sleeps]
      simp only [if_neg (by simp : ¬ false = true)]
      rw [ih (min (a * 2) mx) (min_le_right _ _)]
      rw [List.range_succ_eq_map]
      simp only [List.map_cons, List.map_map]
      congr 1
      · rw [pow_zero, one_mul, min_eq_left ha]
      · apply List.map_congr_left
        intro k _
        simp only [Function.comp_apply]
        exact min_double_pow_absorb k a mx hmx

/-- C6: in the reconnecting reader's loop, the delay slept before each
reconnect attempt is updated after the sleep to
min(delay * 2, max_reconnect_delay_seconds), and the delay is reset to
reconnect_delay_seconds exactly after every successful decoder spawn (not
after every successful read); consequently (for a sane configuration with
0 ≤ reconnect_delay ≤ max_reconnect_delay) every slept delay lies in
[reconnect_delay_seconds, max_reconnect_delay_seconds], and under repeated
connection failures the sequence of sleeps is reconnect_delay_seconds, then
doubled each time, capped at max_reconnect_delay_seconds. -/
theorem C6_reconnect_backoff (rd mx : ℚ) (h0 : 0 ≤ rd) (hle : rd ≤ mx) :
    (∀ (events : List Bool) (d : ℚ), rd ≤ d → d ≤ mx →
      ∀ s ∈ rtsp_reader.stream_windows_sleeps rd mx events d,
        rd ≤ s ∧ s ≤ mx) ∧
    (∀ n : ℕ,
      rtsp_reader.stream_windows_sleeps rd mx (List.replicate n false) rd
        = (List.range n).map fun k => min (2 ^ k * rd) mx) := by
  constructor
  · intro events
    induction events with
    | nil => intro d _ _ s hs; simp [rtsp_reader.stream_windows_sleeps] at hs
    | cons ok rest ih =>
        intro d hd1 hd2 s hs
        rw [rtsp_reader.stream_windows_sleeps] at hs
        have hd1' : rd ≤ (if ok then rd else d) := by
          split <;> [exact le_refl rd; exact hd1]
        have hd2' : (if ok then rd else d) ≤ mx := by
          split <;> [exact hle; exact hd2]
        rcases List.mem_cons.mp hs with h | h
        · exact h ▸ ⟨hd1', hd2'⟩
        · refine ih (min ((if ok then rd else d) * 2) mx) ?_ (min_le_right _ _) s h
          exact le_min (by linarith) hle
  · intro n
    exact stream_windows_sleeps_replicate_false rd mx (le_trans h0 hle) n rd hle

/-- Witness for C6: with the default delays (5 s initial, 60 s cap), four
consecutive failed connection attempts sleep 5, 10, 20 and 40 seconds. -/
theorem C6_reconnect_backoff_witness :
    rtsp_reader.stream_windows_sleeps 5 60 (List.replicate 4 false) 5
      = [5, 10, 20, 40] := by
  have h := (C6_reconnect_backoff 5 60 (by norm_num) (by norm_num)).2 4
  rw [h]
  norm_num [List.range_succ]

theorem sortDetections_sorted (l : List birdnet_client.Detection) :
    List.Sorted birdnet_client.confDesc (birdnet_client.sortDetections l) :=
  List.sorted_insertionSort birdnet_client.confDesc l

theorem sortDetections_perm (l : List birdnet_client.Detection) :
    List.Perm (birdnet_client.sortDetections l) l :=
  List.perm_insertionSort birdnet_client.confDesc l

theorem parseHttpDetectionsLoop_conf (cfg : config.BirdNETConfig) :
    ∀ (items : List birdnet_client.JVal) (dets : List birdnet_client.Detection),
      birdnet_client.parseHttpDetectionsLoop cfg items = .ok dets →
      ∀ d ∈ dets, cfg.min_confidence ≤ d.confidence := by
  intro items
  induction items with
  | nil =>
      intro dets h d hd
      rw [birdnet_client.parseHttpDetectionsLoop] at h
      injection h with h
      subst h
      simp at hd
  | cons item rest ih =>
      intro dets h d hd
      cases item <;>
        try (simp only [birdnet_client.parseHttpDetectionsLoop] at h
             exact ih dets h d hd)
      rename_i fields
      rw [birdnet_client.parseHttpDetectionsLoop] at h
      cases hc : birdnet_client.pyFloat
          (birdnet_client.dgetD fields "confidence" (.jnum 0)) with
      | error e => rw [hc] at h; simp at h
      | ok conf =>
          rw [hc] at h
          dsimp only at h
          by_cases hcond : cfg.min_confidence ≤ conf
          · rw [if_pos hcond] at h
            cases hst : birdnet_client.pyFloat
                (birdnet_client.dgetD fields "start_time" (.jnum 0)) with
            | error e => rw [hst] at h; simp at h
            | ok st =>
                rw [hst] at h
                dsimp only at h
                cases het : birdnet_client.pyFloat
                    (birdnet_client.dgetD fields "end_time" (.jnum 0)) with
                | error e => rw [het] at h; simp at h
                | ok et =>
                    rw [het] at h
                    dsimp only at h
                    cases hrest : birdnet_client.parseHttpDetectionsLoop cfg rest with
                    | error e => rw [hrest] at h; simp at h
                    | ok tail =>
                        rw [hrest] at h
                        dsimp only at h
                        injection h with h
                        subst h
                        rcases List.mem_cons.mp hd with hh | hh
                        · subst hh; exact hcond
                        · exact ih tail hrest d hh
          · rw [if_neg hcond] at h
            exact ih dets h d hd

theorem parseCliDetList_conf (cfg : config.BirdNETConfig) :
    ∀ (items : List birdnet_client.JVal) (dets : List birdnet_client.Detection),
      birdnet_client.parseCliDetList cfg items = .ok dets →
      ∀ d ∈ dets, cfg.min_confidence ≤ d.confidence := by
  intro items
  induction items with
  | nil =>
      intro dets h d hd
      rw [birdnet_client.parseCliDetList] at h
      injection h with h
      subst h
      simp at hd
  | cons item rest ih =>
      intro dets h d hd
      cases item with
      | jobj fields =>
          rw [birdnet_client.parseCliDetList] at h
          cases hc : birdnet_client.pyFloat
              (birdnet_client.dgetD fields "confidence" (.jnum 0)) with
          | error e => rw [hc] at h; simp at h
          | ok conf =>
              rw [hc] at h
              dsimp only at h
              cases hrest : birdnet_client.parseCliDetList cfg rest with
              | error e => rw [hrest] at h; simp at h
              | ok tail =>
                  rw [hrest] at h
                  dsimp only at h
                  by_cases hcond : cfg.min_confidence ≤ conf
                  · rw [if_pos hcond] at h
                    injection h with h
                    subst h
                    rcases List.mem_cons.mp hd with hh | hh
                    · subst hh; exact hcond
                    · exact ih tail hrest d hh
                  · rw [if_neg hcond] at h
                    injection h with h
                    subst h
                    exact ih tail hrest d hd
      | jnull => simp [birdnet_client.parseCliDetList] at h
      | jbool b => simp [birdnet_client.parseCliDetList] at h
      | jnum q => simp [birdnet_client.parseCliDetList] at h
      | jstr s => simp [birdnet_client.parseCliDetList] at h
      | jarr items2 => simp [birdnet_client.parseCliDetList] at h

theorem parseCliResults_conf (cfg : config.BirdNETConfig) :
    ∀ (items : List birdnet_client.JVal) (dets : List birdnet_client.Detection),
      birdnet_client.parseCliResults cfg items = .ok dets →
      ∀ d ∈ dets, cfg.min_confidence ≤ d.confidence := by
  intro items
  induction items with
  | nil =>
      intro dets h d hd
      rw [birdnet_client.parseCliResults] at h
      injection h with h
      subst h
      simp at hd
  | cons item rest ih =>
      intro dets h d hd
      cases item with
      | jobj fields =>
          rw [birdnet_client.parseCliResults] at h
          cases hdv : birdnet_client.dgetD fields "detections" (.jarr []) with
          | jarr innerDets =>
              rw [hdv] at h
              dsimp only at h
              cases hcur : birdnet_client.parseCliDetList cfg innerDets with
              | error e => rw [hcur] at h; simp at h
              | ok cur =>
                  rw [hcur] at h
                  dsimp only at h
                  cases hrest : birdnet_client.parseCliResults cfg rest with
                  | error e => rw [hrest] at h; simp at h
                  | ok tail =>
                      rw [hrest] at h
                      dsimp only at h
                      injection h with h
                      subst h
                      rcases List.mem_append.mp hd with hh | hh
                      · exact parseCliDetList_conf cfg innerDets cur hcur d hh
                      · exact ih tail hrest d hh
          | jnull => rw [hdv] at h; simp at h
          | jbool b => rw [hdv] at h; simp at h
          | jnum q => rw [hdv] at h; simp at h
          | jstr s => rw [hdv] at h; simp at h
          | jobj fields2 => rw [hdv] at h; simp at h
      | jnull => simp [birdnet_client.parseCliResults] at h
      | jbool b => simp [birdnet_client.parseCliResults] at h
      | jnum q => simp [birdnet_client.parseCliResults] at h
      | jstr s => simp [birdnet_client.parseCliResults] at h
      | jarr items2 => simp [birdnet_client.parseCliResults] at h

/-- The classifier post-conditions of spec section 4.6, as a predicate on a
result list. -/
def ClassifierPost (cfg : config.BirdNETConfig)
    (r : List birdnet_client.Detection) : Prop :=
  List.Sorted birdnet_client.confDesc r ∧
  r.length ≤ cfg.top_n ∧
  ∀ d ∈ r, cfg.min_confidence ≤ d.confidence

theorem sortTake_post (cfg : config.BirdNETConfig)
    (dets : List birdnet_client.Detection)
    (hall : ∀ d ∈ dets, cfg.min_confidence ≤ d.confidence) :
    ClassifierPost cfg ((birdnet_client.sortDetections dets).take cfg.top_n) := by
  refine ⟨?_, ?_, ?_⟩
  · exact List.Pairwise.sublist (List.take_sublist _ _) (sortDetections_sorted dets)
  · exact List.length_take_le _ _
  · intro d hd
    exact hall d ((sortDetections_perm dets).mem_iff.mp (List.mem_of_mem_take hd))

theorem postprocessHttp_post (cfg : config.BirdNETConfig)
    (dets : List birdnet_client.Detection) :
    ClassifierPost cfg (birdnet_client.postprocessHttp cfg dets) := by
  unfold birdnet_client.postprocessHttp
  refine sortTake_post cfg _ ?_
  intro d hd
  exact of_decide_eq_true (List.mem_filter.mp hd).2

theorem empty_post (cfg : config.BirdNETConfig) :
    ClassifierPost cfg [] :=
  ⟨List.sorted_nil, by simp, by simp⟩

theorem analyzeHttpBody_post (cfg : config.BirdNETConfig)
    (data : birdnet_client.JVal) (dets : List birdnet_client.Detection)
    (h : birdnet_client.analyzeHttpBody cfg data = .ok dets) :
    ClassifierPost cfg dets := by
  cases data with
  | jarr items =>
      rw [birdnet_client.analyzeHttpBody] at h
      cases hp : birdnet_client.parseHttpList items with
      | error e => rw [hp] at h; simp at h
      | ok l =>
          rw [hp] at h
          dsimp only at h
          injection h with h
          subst h
          exact postprocessHttp_post cfg l
  | jobj fields =>
      rw [birdnet_client.analyzeHttpBody] at h
      cases hdet : birdnet_client.dget fields "detections" with
      | some v =>
          rw [hdet] at h
          cases v with
          | jarr items =>
              dsimp only at h
              rw [birdnet_client._parse_detections] at h
              cases hp : birdnet_client.parseHttpDetectionsLoop cfg items with
              | error e => rw [hp] at h; simp at h
              | ok l =>
                  rw [hp] at h
                  dsimp only at h
                  injection h with h
                  subst h
                  exact sortTake_post cfg l (parseHttpDetectionsLoop_conf cfg items l hp)
          | jnull => simp at h
          | jbool b => simp at h
          | jnum q => simp at h
          | jstr s => simp at h
          | jobj fields2 => simp at h
      | none =>
          rw [hdet] at h
          dsimp only at h
          split at h
          · cases hc : birdnet_client.pyFloat
                (birdnet_client.dgetD fields "confidence" (.jnum 0)) with
            | error e => rw [hc] at h; simp at h
            | ok conf =>
                rw [hc] at h
                dsimp only at h
                injection h with h
                subst h
                exact postprocessHttp_post cfg _
          · injection h with h
            subst h
            exact postprocessHttp_post cfg _
  | jnull =>
      simp only [birdnet_client.analyzeHttpBody, Except.ok.injEq] at h
      subst h; exact postprocessHttp_post cfg _
  | jbool b =>
      simp only [birdnet_client.analyzeHttpBody, Except.ok.injEq] at h
      subst h; exact postprocessHttp_post cfg _
  | jnum q =>
      simp only [birdnet_client.analyzeHttpBody, Except.ok.injEq] at h
      subst h; exact postprocessHttp_post cfg _
  | jstr s =>
      simp only [birdnet_client.analyzeHttpBody, Except.ok.injEq] at h
      subst h; exact postprocessHttp_post cfg _

theorem analyzeCliBody_conf (cfg : config.BirdNETConfig)
    (data : birdnet_client.JVal) (dets : List birdnet_client.Detection)
    (h : birdnet_client.analyzeCliBody cfg data = .ok dets) :
    ∀ d ∈ dets, cfg.min_confidence ≤ d.confidence := by
  cases data with
  | jobj fields =>
      rw [birdnet_client.analyzeCliBody] at h
      cases hres : birdnet_client.dget fields "results" with
      | some v =>
          rw [hres] at h
          cases v with
          | jarr ris =>
              dsimp only at h
              exact parseCliResults_conf cfg ris dets h
          | jnull => simp at h
          | jbool b => simp at h
          | jnum q => simp at h
          | jstr s => simp at h
          | jobj fields2 => simp at h
      | none =>
          rw [hres] at h
          dsimp only at h
          injection h with h
          subst h
          simp
  | jarr items =>
      rw [birdnet_client.analyzeCliBody] at h
      exact parseCliDetList_conf cfg items dets h
  | jnull =>
      simp only [birdnet_client.analyzeCliBody, Except.ok.injEq] at h
      subst h; simp
  | jbool b =>
      simp only [birdnet_client.analyzeCliBody, Except.ok.injEq] at h
      subst h; simp
  | jnum q =>
      simp only [birdnet_client.analyzeCliBody, Except.ok.injEq] at h
      subst h; simp
  | jstr s =>
      simp only [birdnet_client.analyzeCliBody, Except.ok.injEq] at h
      subst h; simp

/-- C3: for every input and every backend (HTTP and CLI), the list returned
by analyze is sorted by confidence descending, has length at most top_n, and
every element has confidence >= min_confidence. -/
theorem C3_analyze_postconditions (cfg : config.BirdNETConfig) :
    (∀ o : birdnet_client.HttpOutcome,
      ClassifierPost cfg (birdnet_client.analyzeHttp cfg o)) ∧
    (∀ o : birdnet_client.CliOutcome,
      ClassifierPost cfg (birdnet_client.analyzeCli cfg o)) := by
  constructor
  · intro o
    cases o with
    | requestError => exact empty_post cfg
    | jsonError => exact empty_post cfg
    | otherFailure => exact empty_post cfg
    | success data =>
        rw [birdnet_client.analyzeHttp]
        cases hb : birdnet_client.analyzeHttpBody cfg data with
        | error e => exact empty_post cfg
        | ok dets => exact analyzeHttpBody_post cfg data dets hb
  · intro o
    cases o with
    | timeout => exact empty_post cfg
    | exitNonzero => exact empty_post cfg
    | noOutputFile => exact empty_post cfg
    | jsonError => exact empty_post cfg
    | otherFailure => exact empty_post cfg
    | success data =>
        rw [birdnet_client.analyzeCli]
        cases hb : birdnet_client.analyzeCliBody cfg data with
        | error e => exact empty_post cfg
        | ok dets =>
            exact sortTake_post cfg dets (analyzeCliBody_conf cfg data dets hb)

/-- C4: for every input, analyze on either backend never raises an exception
to its caller: on any backend failure (network error, timeout, non-2xx
status, malformed or unparseable response, subprocess nonzero exit, missing
output file) it returns the empty list.  Both analyze functions are total by
construction (every exception inside the try-block is modelled by the error
value of the body), and every failure branch returns []. -/
theorem C4_analyze_failure_empty (cfg : config.BirdNETConfig) :
    birdnet_client.analyzeHttp cfg .requestError = [] ∧
    birdnet_client.analyzeHttp cfg .jsonError = [] ∧
    birdnet_client.analyzeHttp cfg .otherFailure = [] ∧
    (∀ data : birdnet_client.JVal,
      birdnet_client.analyzeHttpBody cfg data = .error () →
      birdnet_client.analyzeHttp cfg (.success data) = []) ∧
    birdnet_client.analyzeCli cfg .timeout = [] ∧
    birdnet_client.analyzeCli cfg .exitNonzero = [] ∧
    birdnet_client.analyzeCli cfg .noOutputFile = [] ∧
    birdnet_client.analyzeCli cfg .jsonError = [] ∧
    birdnet_client.analyzeCli cfg .otherFailure = [] ∧
    (∀ data : birdnet_client.JVal,
      birdnet_client.analyzeCliBody cfg data = .error () →
      birdnet_client.analyzeCli cfg (.success data) = []) := by
  refine ⟨rfl, rfl, rfl, ?_, rfl, rfl, rfl, rfl, rfl, ?_⟩
  · intro data h
    rw [birdnet_client.analyzeHttp, h]
  · intro data h
    rw [birdnet_client.analyzeCli, h]

/-- Witness for C4: a response whose "detections" value is a number (HTTP)
and an output whose "results" value is a number (CLI) both make the parse
fail, and analyze returns []. -/
theorem C4_analyze_failure_empty_witness :
    birdnet_client.analyzeHttp ⟨0, 5⟩
      (.success (.jobj [("detections", .jnum 3)])) = [] ∧
    birdnet_client.analyzeCli ⟨0, 5⟩
      (.success (.jobj [("results", .jnum 3)])) = [] :=
  ⟨(C4_analyze_failure_empty ⟨0, 5⟩).2.2.2.1 _ rfl,
   (C4_analyze_failure_empty ⟨0, 5⟩).2.2.2.2.2.2.2.2.2 _ rfl⟩

theorem truthy_jnull : birdnet_client.truthy .jnull = false := rfl

/-- C7 (counterexample to the claim as stated): on a detection object whose
only name field is "species", the HTTP backend resolves "Robin" but the CLI
backend resolves "Unknown" — the CLI backend never consults the "species"
key, so it does not apply the claimed first-present rule, nor the same rule
as the HTTP backend. -/
theorem C7_counterexample :
    birdnet_client.resolveSpeciesCli [("species", .jstr "Robin")]
      = .jstr "Unknown" ∧
    birdnet_client.resolveSpeciesHttp [("species", .jstr "Robin")]
      = .jstr "Robin" ∧
    birdnet_client.claimedFirstPresentSpecies [("species", .jstr "Robin")]
      = .jstr "Robin" ∧
    birdnet_client.resolveSpeciesCli [("species", .jstr "Robin")]
      ≠ birdnet_client.claimedFirstPresentSpecies [("species", .jstr "Robin")] := by
  refine ⟨rfl, rfl, rfl, ?_⟩
  intro hcontra
  injection (show birdnet_client.JVal.jstr "Unknown"
      = birdnet_client.JVal.jstr "Robin" from hcontra) with hs
  exact absurd hs (by decide)

/-- C7 (amended): the HTTP backend resolves the species name as the first
present and truthy of scientific_name, common_name, falling back to the
value of species when present (truthy or not) and to "Unknown" otherwise;
the CLI backend resolves it presence-based as scientific_name if present,
else common_name if present, else "Unknown", never consulting the species
key.  confidence, start_time and end_time default to 0 when absent (the CLI
backend always leaves start_time and end_time at their dataclass default
0). -/
theorem C7_species_resolution_amended
    (cfg : config.BirdNETConfig) (fields : List (String × birdnet_client.JVal)) :
    (∀ v, birdnet_client.dget fields "scientific_name" = some v →
        birdnet_client.truthy v = true →
        birdnet_client.resolveSpeciesHttp fields = v) ∧
    ((∀ v, birdnet_client.dget fields "scientific_name" = some v →
        birdnet_client.truthy v = false) →
      ∀ v, birdnet_client.dget fields "common_name" = some v →
        birdnet_client.truthy v = true →
        birdnet_client.resolveSpeciesHttp fields = v) ∧
    ((∀ v, birdnet_client.dget fields "scientific_name" = some v →
        birdnet_client.truthy v = false) →
      (∀ v, birdnet_client.dget fields "common_name" = some v →
        birdnet_client.truthy v = false) →
      birdnet_client.resolveSpeciesHttp fields
        = birdnet_client.dgetD fields "species" (.jstr "Unknown")) ∧
    (∀ v, birdnet_client.dget fields "scientific_name" = some v →
        birdnet_client.resolveSpeciesCli fields = v) ∧
    (birdnet_client.dget fields "scientific_name" = none →
      ∀ v, birdnet_client.dget fields "common_name" = some v →
        birdnet_client.resolveSpeciesCli fields = v) ∧
    (birdnet_client.dget fields "scientific_name" = none →
      birdnet_client.dget fields "common_name" = none →
      birdnet_client.resolveSpeciesCli fields = .jstr "Unknown") ∧
    (birdnet_client.dget fields "confidence" = none →
      birdnet_client.dget fields "start_time" = none →
      birdnet_client.dget fields "end_time" = none →
      birdnet_client.parseHttpList [.jobj fields]
        = .ok [⟨birdnet_client.resolveSpeciesHttp fields, 0, 0, 0⟩]) ∧
    (birdnet_client.dget fields "confidence" = none →
      cfg.min_confidence ≤ 0 →
      birdnet_client.parseCliDetList cfg [.jobj fields]
        = .ok [⟨birdnet_client.resolveSpeciesCli fields, 0, 0, 0⟩]) := by
  refine ⟨?_, ?_, ?_, ?_, ?_, ?_, ?_, ?_⟩
  · intro v hv ht
    unfold birdnet_client.resolveSpeciesHttp birdnet_client.pyOr
      birdnet_client.dgetD
    rw [hv]
    simp [ht]
  · intro hsci v hv ht
    unfold birdnet_client.resolveSpeciesHttp birdnet_client.pyOr
    cases hs : birdnet_client.dget fields "scientific_name" with
    | none => simp [birdnet_client.dgetD, hs, hv, truthy_jnull, ht]
    | some w => simp [birdnet_client.dgetD, hs, hv, hsci w hs, ht]
  · intro hsci hcom
    unfold birdnet_client.resolveSpeciesHttp birdnet_client.pyOr
    cases hs : birdnet_client.dget fields "scientific_name" with
    | none =>
        cases hc : birdnet_client.dget fields "common_name" with
        | none => simp [birdnet_client.dgetD, hs, hc, truthy_jnull]
        | some w => simp [birdnet_client.dgetD, hs, hc, hcom w hc, truthy_jnull]
    | some w =>
        cases hc : birdnet_client.dget fields "common_name" with
        | none => simp [birdnet_client.dgetD, hs, hc, hsci w hs, truthy_jnull]
        | some w2 => simp [birdnet_client.dgetD, hs, hc, hsci w hs,
            hcom w2 hc, truthy_jnull]
  · intro v hv
    unfold birdnet_client.resolveSpeciesCli birdnet_client.dgetD
    rw [hv]
    simp
  · intro hs v hv
    unfold birdnet_client.resolveSpeciesCli birdnet_client.dgetD
    rw [hs, hv]
    simp
  · intro hs hc
    unfold birdnet_client.resolveSpeciesCli birdnet_client.dgetD
    rw [hs, hc]
    simp
  · intro hc hst het
    rw [birdnet_client.parseHttpList]
    unfold birdnet_client.dgetD
    rw [hc, hst, het]
    simp [birdnet_client.pyFloat, birdnet_client.parseHttpList]
  · intro hc h0
    rw [birdnet_client.parseCliDetList]
    unfold birdnet_client.dgetD
    rw [hc]
    simp [birdnet_client.pyFloat, birdnet_client.parseCliDetList, h0]

/-- Witness for C7 (amended): an object carrying only a scientific_name
resolves to that name on both backends. -/
theorem C7_species_resolution_amended_witness :
    birdnet_client.resolveSpeciesHttp [("scientific_name", .jstr "Corvus corax")]
      = .jstr "Corvus corax" ∧
    birdnet_client.resolveSpeciesCli [("scientific_name", .jstr "Corvus corax")]
      = .jstr "Corvus corax" :=
  ⟨(C7_species_resolution_amended ⟨0, 5⟩ _).1 _ rfl rfl,
   (C7_species_resolution_amended ⟨0, 5⟩ _).2.2.2.1 _ rfl⟩

theorem insertDetections_ok (wid : ℕ) :
    ∀ (dets : List (birdnet_client.Detection × Bool))
      (db db' : sqlite_log.SQLiteDB),
      sqlite_log.insertDetections wid db dets = .ok db' →
      db'.site_id = db.site_id ∧
      db'.windows = db.windows ∧
      db'.next_window_id = db.next_window_id ∧
      db'.detections = db.detections
        ++ sqlite_log.detRowsFrom db.next_detection_id wid (dets.map Prod.fst) := by
  intro dets
  induction dets with
  | nil =>
      intro db db' h
      rw [sqlite_log.insertDetections] at h
      injection h with h
      subst h
      simp [sqlite_log.detRowsFrom]
  | cons p rest ih =>
      intro db db' h
      obtain ⟨d, fails⟩ := p
      rw [sqlite_log.insertDetections] at h
      by_cases hf : fails = true
      · rw [if_pos hf] at h
        exact absurd h (by simp)
      · rw [if_neg hf] at h
        obtain ⟨h1, h2, h3, h4⟩ := ih _ db' h
        refine ⟨h1, h2, h3, ?_⟩
        rw [h4]
        simp [sqlite_log.detRowsFrom, List.append_assoc]

/-- C5: on the relational (SQLite) backend, log_window is atomic: either the
window row and all of its detection rows are committed together, or on any
failure the transaction is rolled back so the store is unchanged and the
error is re-raised. -/
theorem C5_sqlite_log_window_atomic
    (db : sqlite_log.SQLiteDB) (timestamp stream_name : String)
    (f : features.AudioFeatures) (decision : gate.GateDecision)
    (reason : String) (dets : List (birdnet_client.Detection × Bool))
    (window_insert_fails : Bool) :
    (∀ wid,
      (sqlite_log.log_window db timestamp stream_name f decision reason dets
          window_insert_fails).2 = .ok wid →
      wid = db.next_window_id ∧
      (sqlite_log.log_window db timestamp stream_name f decision reason dets
          window_insert_fails).1.windows
        = db.windows
          ++ [⟨db.next_window_id, timestamp, db.site_id, stream_name,
                f.rms_total_db, f.rms_bird_band_db, f.rms_low_band_db,
                f.snr_bird_db, decision.value, reason⟩] ∧
      (sqlite_log.log_window db timestamp stream_name f decision reason dets
          window_insert_fails).1.detections
        = db.detections
          ++ sqlite_log.detRowsFrom db.next_detection_id db.next_window_id
              (dets.map Prod.fst)) ∧
    ((sqlite_log.log_window db timestamp stream_name f decision reason dets
        window_insert_fails).2 = .error () →
      (sqlite_log.log_window db timestamp stream_name f decision reason dets
        window_insert_fails).1 = db) := by
  unfold sqlite_log.log_window
  cases hb : sqlite_log.log_window_body db timestamp stream_name f decision
      reason dets window_insert_fails with
  | error e =>
      refine ⟨?_, ?_⟩
      · intro wid hwid
        exact absurd hwid (by simp)
      · intro _
        rfl
  | ok p =>
      obtain ⟨db2, wid2⟩ := p
      dsimp only
      rw [sqlite_log.log_window_body] at hb
      by_cases hwf : window_insert_fails = true
      · rw [if_pos hwf] at hb
        exact absurd hb (by simp)
      · rw [if_neg hwf] at hb
        dsimp only at hb
        cases hi : sqlite_log.insertDetections db.next_window_id
            { db with
                windows := db.windows
                  ++ [⟨db.next_window_id, timestamp, db.site_id, stream_name,
                        f.rms_total_db, f.rms_bird_band_db, f.rms_low_band_db,
                        f.snr_bird_db, decision.value, reason⟩]
                next_window_id := db.next_window_id + 1 } dets with
        | error e => rw [hi] at hb; simp at hb
        | ok db3 =>
            rw [hi] at hb
            dsimp only at hb
            injection hb with hb
            injection hb with hbdb hbwid
            subst hbdb
            subst hbwid
            obtain ⟨h1, h2, h3, h4⟩ :=
              insertDetections_ok db.next_window_id dets _ db3 hi
            refine ⟨?_, ?_⟩
            · intro wid hwid
              injection hwid with hwid
              subst hwid
              refine ⟨rfl, ?_, ?_⟩
              · rw [h2]
              · rw [h4]
            · intro habs
              exact absurd habs (by simp)

/-- Witness for C5: logging one window with one detection into a fresh
store, with no injected failures, commits the window row and its detection
row together and returns id 1. -/
theorem C5_sqlite_log_window_atomic_witness :
    (1 : ℕ) = 1 ∧
    (sqlite_log.log_window ⟨"site", [], [], 1, 1⟩ "t" "cam" ⟨-50, -40, -45, 5⟩
        gate.GateDecision.SEND_TO_BIRDNET "ok"
        [(⟨birdnet_client.JVal.jstr "A", 1, 0, 0⟩, false)] false).1.windows
      = [⟨1, "t", "site", "cam", -50, -40, -45, 5, "SEND_TO_BIRDNET", "ok"⟩] ∧
    (sqlite_log.log_window ⟨"site", [], [], 1, 1⟩ "t" "cam" ⟨-50, -40, -45, 5⟩
        gate.GateDecision.SEND_TO_BIRDNET "ok"
        [(⟨birdnet_client.JVal.jstr "A", 1, 0, 0⟩, false)] false).1.detections
      = [⟨1, 1, birdnet_client.JVal.jstr "A", 1, 0, 0⟩] :=
  (C5_sqlite_log_window_atomic ⟨"site", [], [], 1, 1⟩ "t" "cam"
    ⟨-50, -40, -45, 5⟩ gate.GateDecision.SEND_TO_BIRDNET "ok"
    [(⟨birdnet_client.JVal.jstr "A", 1, 0, 0⟩, false)] false).1 1 rfl

/-- C8 (counterexample to the claim as stated): the JSONL backend's
get_detections_for_window returns the stored detections in logged order
without sorting; logging detections with ascending confidences 1 then 2
returns them in that (non-descending) order. -/
theorem C8_counterexample :
    jsonl_log.get_detections_for_window
      (jsonl_log.log_window ⟨"site", 0, []⟩ "t" "cam" ⟨0, 0, 0, 0⟩
        gate.GateDecision.SEND_TO_BIRDNET "ok"
        [⟨birdnet_client.JVal.jstr "A", 1, 0, 0⟩,
         ⟨birdnet_client.JVal.jstr "B", 2, 0, 0⟩]).1 1
      = [⟨birdnet_client.JVal.jstr "A", 1, 0, 0⟩,
         ⟨birdnet_client.JVal.jstr "B", 2, 0, 0⟩] ∧
    ¬ List.Sorted birdnet_client.confDesc
        (jsonl_log.get_detections_for_window
          (jsonl_log.log_window ⟨"site", 0, []⟩ "t" "cam" ⟨0, 0, 0, 0⟩
            gate.GateDecision.SEND_TO_BIRDNET "ok"
            [⟨birdnet_client.JVal.jstr "A", 1, 0, 0⟩,
             ⟨birdnet_client.JVal.jstr "B", 2, 0, 0⟩]).1 1) := by
  refine ⟨rfl, ?_⟩
  intro hs
  rw [show jsonl_log.get_detections_for_window
      (jsonl_log.log_window ⟨"site", 0, []⟩ "t" "cam" ⟨0, 0, 0, 0⟩
        gate.GateDecision.SEND_TO_BIRDNET "ok"
        [⟨birdnet_client.JVal.jstr "A", 1, 0, 0⟩,
         ⟨birdnet_client.JVal.jstr "B", 2, 0, 0⟩]).1 1
      = [⟨birdnet_client.JVal.jstr "A", 1, 0, 0⟩,
         ⟨birdnet_client.JVal.jstr "B", 2, 0, 0⟩] from rfl] at hs
  have h := (List.pairwise_cons.mp hs).1
    ⟨birdnet_client.JVal.jstr "B", 2, 0, 0⟩ (by simp)
  have h2 : (2 : ℚ) ≤ 1 := h
  norm_num at h2

/-- C8 (amended): on the relational backend get_detections_for_window
returns exactly the stored detections of the window, sorted by confidence
descending; on the append-only text backend it returns the detections of
the first record with the given id in the order they were logged (so sorted
output is only guaranteed when the logged list was already sorted, as it is
for classifier results). -/
theorem C8_get_detections_order
    (db : sqlite_log.SQLiteDB) (window_id : ℕ)
    (st : jsonl_log.JSONLStorage) (timestamp stream_name : String)
    (f : features.AudioFeatures) (decision : gate.GateDecision)
    (reason : String) (dets : List birdnet_client.Detection)
    (hfresh : ∀ r ∈ st.lines.filterMap id, r.id ≠ st.window_id + 1) :
    List.Sorted sqlite_log.rowConfDesc
      (sqlite_log.get_detections_for_window db window_id) ∧
    List.Perm (sqlite_log.get_detections_for_window db window_id)
      (db.detections.filter fun r => r.window_id == window_id) ∧
    jsonl_log.get_detections_for_window
        (jsonl_log.log_window st timestamp stream_name f decision reason
          dets).1
        (jsonl_log.log_window st timestamp stream_name f decision reason
          dets).2
      = dets := by
  refine ⟨List.sorted_insertionSort _ _, List.perm_insertionSort _ _, ?_⟩
  unfold jsonl_log.log_window jsonl_log.get_detections_for_window
  dsimp only
  rw [List.filterMap_append]
  rw [List.find?_append]
  have hnone : (st.lines.filterMap id).find?
      (fun r => r.id == st.window_id + 1) = none := by
    rw [List.find?_eq_none]
    intro r hr
    simpa using hfresh r hr
  rw [hnone]
  simp

/-- Witness for C8 (amended): logging two detections into a fresh JSONL
store and reading them back returns them unchanged, and the SQLite query on
an empty table returns a sorted permutation of the empty filter result. -/
theorem C8_get_detections_order_witness :
    List.Sorted sqlite_log.rowConfDesc
      (sqlite_log.get_detections_for_window ⟨"site", [], [], 1, 1⟩ 1) ∧
    List.Perm (sqlite_log.get_detections_for_window ⟨"site", [], [], 1, 1⟩ 1)
      ((⟨"site", [], [], 1, 1⟩ :
          sqlite_log.SQLiteDB).detections.filter fun r => r.window_id == 1) ∧
    jsonl_log.get_detections_for_window
        (jsonl_log.log_window ⟨"site", 0, []⟩ "t" "cam" ⟨0, 0, 0, 0⟩
          gate.GateDecision.SEND_TO_BIRDNET "ok"
          [⟨birdnet_client.JVal.jstr "B", 2, 0, 0⟩,
           ⟨birdnet_client.JVal.jstr "A", 1, 0, 0⟩]).1
        (jsonl_log.log_window ⟨"site", 0, []⟩ "t" "cam" ⟨0, 0, 0, 0⟩
          gate.GateDecision.SEND_TO_BIRDNET "ok"
          [⟨birdnet_client.JVal.jstr "B", 2, 0, 0⟩,
           ⟨birdnet_client.JVal.jstr "A", 1, 0, 0⟩]).2
      = [⟨birdnet_client.JVal.jstr "B", 2, 0, 0⟩,
         ⟨birdnet_client.JVal.jstr "A", 1, 0, 0⟩] :=
  C8_get_detections_order ⟨"site", [], [], 1, 1⟩ 1 ⟨"site", 0, []⟩ "t" "cam"
    ⟨0, 0, 0, 0⟩ gate.GateDecision.SEND_TO_BIRDNET "ok"
    [⟨birdnet_client.JVal.jstr "B", 2, 0, 0⟩,
     ⟨birdnet_client.JVal.jstr "A", 1, 0, 0⟩]
    (by simp)

/-- C9: for every all-zero sample array (including the empty array), the
feature extractor returns rms_total_db exactly equal to -200.0, because any
RMS value below 1e-10 is floored to 1e-10 before taking 20·log10. -/
theorem C9_all_zero_rms_total_db
    (samples : List ℝ) (h : ∀ x ∈ samples, x = 0) :
    features.extract_rms_total_db samples = -200 := by
  have hrms : features._rms samples = 0 := by
    unfold features._rms
    split
    · rfl
    · have hsum : (samples.map fun x => x ^ 2).sum = 0 := by
        apply List.sum_eq_zero
        intro y hy
        rcases List.mem_map.mp hy with ⟨x, hx, rfl⟩
        rw [h x hx]; ring
      rw [hsum, zero_div, Real.sqrt_zero]
  unfold features.extract_rms_total_db features._db_from_rms
  rw [hrms]
  have hmax : max (0 : ℝ) (1 / 10 ^ 10) = 1 / 10 ^ 10 := by
    rw [max_eq_right]; positivity
  rw [hmax, one_div, Real.logb_inv, Real.logb_pow,
    Real.logb_self_eq_one (by norm_num : (1:ℝ) < 10)]
  norm_num

/-- Witness for C9: the all-zero window of three samples yields exactly
-200 dB. -/
theorem C9_all_zero_rms_total_db_witness :
    features.extract_rms_total_db [0, 0, 0] = -200 :=
  C9_all_zero_rms_total_db [0, 0, 0] (by simp)

/-- C10: on the append-only text (JSONL) backend, calling get_recent_windows
with limit = 0 returns every matching stored record in most-recent-first
order rather than the empty list (the slice results[-0:] selects the whole
list); for every limit ≥ 1 it returns at most limit records. -/
theorem C10_jsonl_get_recent_limit (st : jsonl_log.JSONLStorage)
    (stream_name : Option String) (decision : Option gate.GateDecision) :
    jsonl_log.get_recent_windows st 0 stream_name decision
      = ((st.lines.filterMap id).filter
          (jsonl_log.recordMatches stream_name decision)).reverse ∧
    (((st.lines.filterMap id).filter
        (jsonl_log.recordMatches stream_name decision)) ≠ [] →
      jsonl_log.get_recent_windows st 0 stream_name decision ≠ []) ∧
    ∀ limit, 1 ≤ limit →
      (jsonl_log.get_recent_windows st limit stream_name decision).length
        ≤ limit := by
  refine ⟨?_, ?_, ?_⟩
  · unfold jsonl_log.get_recent_windows jsonl_log.pyTailSlice
    simp
  · intro hne
    unfold jsonl_log.get_recent_windows jsonl_log.pyTailSlice
    simpa using hne
  · intro limit hl
    unfold jsonl_log.get_recent_windows jsonl_log.pyTailSlice
    dsimp only
    rw [if_neg (show ¬ limit = 0 by omega)]
    simp only [List.length_reverse, List.length_drop]
    omega

/-- Witness for C10: on an empty store, get_recent_windows with limit 1
returns at most one record. -/
theorem C10_jsonl_get_recent_limit_witness :
    (jsonl_log.get_recent_windows ⟨"site", 0, []⟩ 1 none none).length ≤ 1 :=
  (C10_jsonl_get_recent_limit ⟨"site", 0, []⟩ none none).2.2 1 (by decide)

end BirdGate
